import Mathlib

/-!
Shallow embedding of `Source/DataSources/TerrainOffsetProperty.js`.

The single source file defines `TerrainOffsetProperty`, a reactive property
that computes a vertical terrain offset vector for a position.  Numbers are
modelled as rationals, JavaScript object mutation as explicit state passing,
the asynchronous height-sampling subsystem as a registry of live registration
handles, and a thrown JavaScript error as an explicit error result.
Collaborator code that lives elsewhere in the repository (Core/Cartesian3,
Core/Math, DataSources/Property, Core/destroyObject, the globe surface) is
modelled from the spec, as marked on each such definition.
-/

set_option autoImplicit false

/-- Time values handed to `getValue` and to the position function
(`JulianDate` in the source); only passed through, so any value type works
and we fix rationals. -/
abbrev JulianDate := ℚ

/-- A world-space point, `Core/Cartesian3`.  Modelled from the spec: a
3-component vector with rational components. -/
structure Cartesian3 where
  x : ℚ
  y : ℚ
  z : ℚ
deriving DecidableEq, Repr

/-- `Cartesian3.ZERO`. -/
def Cartesian3.ZERO : Cartesian3 := ⟨0, 0, 0⟩

/-- `Cartesian3.clone`.  Modelled from the spec: in a value model copying into
a result buffer is the identity. -/
def Cartesian3.clone (c : Cartesian3) : Cartesian3 := c

/-- `Cartesian3.multiplyByScalar`.  Modelled from the spec: componentwise
scaling of the 3-component vector. -/
def Cartesian3.multiplyByScalar (c : Cartesian3) (s : ℚ) : Cartesian3 :=
  ⟨c.x * s, c.y * s, c.z * s⟩

/-- `Cartesian3.equals`.  Modelled from the spec: exact componentwise
equality. -/
def Cartesian3.equals (l r : Cartesian3) : Bool :=
  decide (l = r)

/-- `Cartesian3.equalsEpsilon`.  Modelled from the spec: the candidate
position differs from the cached one by less than a small epsilon
(componentwise absolute comparison). -/
def Cartesian3.equalsEpsilon (l r : Cartesian3) (eps : ℚ) : Bool :=
  decide (-eps ≤ l.x - r.x ∧ l.x - r.x ≤ eps ∧
          -eps ≤ l.y - r.y ∧ l.y - r.y ≤ eps ∧
          -eps ≤ l.z - r.z ∧ l.z - r.z ≤ eps)

/-- `CesiumMath.EPSILON10`.  Modelled from the spec: the cache epsilon,
about 1e-10 in position units. -/
def EPSILON10 : ℚ := 1 / 10000000000

/-- A geodetic coordinate, `Core/Cartographic`: longitude, latitude, height.
Modelled from the spec: a latitude/longitude/height triple. -/
structure Cartographic where
  longitude : ℚ
  latitude : ℚ
  height : ℚ
deriving DecidableEq, Repr

/-- The geodetic math collaborator (`globe.ellipsoid`), kept abstract: the
spec scopes it out as an external interface exposing coordinate conversion
and surface-normal computation. -/
structure Ellipsoid where
  cartesianToCartographic : Cartesian3 → Cartographic
  geodeticSurfaceNormal : Cartesian3 → Cartesian3

/-- The globe collaborator (`scene.globe`): an ellipsoid and the synchronous
best-effort height lookup `globe.getHeight`, which may yield no value. -/
structure Globe where
  ellipsoid : Ellipsoid
  getHeight : Cartographic → Option ℚ

/-- The scene collaborator.  `sceneId` models JavaScript reference identity
of the scene object, used by the `===` comparison in `equals`.  The globe
may be absent (`scene.globe` undefined). -/
structure Scene where
  sceneId : ℕ
  globe : Option Globe

/-- The asynchronous height-sampling subsystem (`globe._surface`).  Modelled
from the spec: `updateHeight` registers a height-refinement request and
returns a cancellation handle; cancelling removes the registration.  The
registry records the handles of the registrations that are still in flight. -/
structure Registry where
  nextHandle : ℕ
  active : List ℕ
deriving DecidableEq, Repr

/-- A fresh registry with no in-flight registration. -/
def Registry.init : Registry := ⟨0, []⟩

/-- `surface.updateHeight(cartographic, callback)`: issue a new registration
and hand back its cancellation handle. -/
def Registry.updateHeight (r : Registry) : ℕ × Registry :=
  (r.nextHandle, ⟨r.nextHandle + 1, r.nextHandle :: r.active⟩)

/-- Invoking a cancellation handle (`removeCallbackFunc()`): the registration
with that handle is no longer in flight. -/
def Registry.cancel (r : Registry) (h : ℕ) : Registry :=
  ⟨r.nextHandle, r.active.filter (fun x => x != h)⟩

/-- The height-reference enumeration, `Scene/HeightReference`. -/
inductive HeightReference where
  | NONE
  | CLAMP_TO_GROUND
  | RELATIVE_TO_GROUND
deriving DecidableEq, Repr

/-- A height source (`this._height` / `this._extrudedHeight`): an object
whose `heightReference` sub-property, when present, yields an optional
height-reference mode at a given time. -/
structure HeightPropertyLike where
  heightReference : Option (JulianDate → Option HeightReference)

/-- `Property.getValueOrDefault(property, time, default)`.  Modelled from the
spec: retrieve the reactive value at the given time, defaulting when the
property is absent or yields no value. -/
def Property.getValueOrDefault (p : Option (JulianDate → Option HeightReference))
    (time : JulianDate) (d : HeightReference) : HeightReference :=
  match p with
  | none => d
  | some f => (f time).getD d

/-- Thrown JavaScript errors, made explicit.  `typeError` models the
TypeError raised by dereferencing an undefined object; `developerError`
models the DeveloperError raised when a destroyed object is used. -/
inductive JsError where
  | typeError
  | developerError
deriving DecidableEq, Repr

/-- The mutable state of one `TerrainOffsetProperty` instance
(constructor, lines 38-66).  `defChangedCount` counts how many times the
`definitionChanged` event has been raised; `listenerReleases` counts how many
times the pair of scene-subscription removers has been invoked; `destroyed`
is the mark left by `destroyObject`. -/
structure TerrainOffsetProperty where
  scene : Scene
  height : Option HeightPropertyLike
  extrudedHeight : Option HeightPropertyLike
  getPosition : JulianDate → Option Cartesian3
  position : Cartesian3
  cartographicPosition : Cartographic
  normal : Cartesian3
  terrainHeight : ℚ
  removeCallbackFunc : Option ℕ
  defChangedCount : ℕ
  listenerReleases : ℕ
  destroyed : Bool

/-- The constructor (lines 38-66): caches start at the zero vector and zero
height, no refinement is pending, the event has never fired, and the two
scene subscriptions are installed (released zero times). -/
def TerrainOffsetProperty.construct (scene : Scene)
    (height extrudedHeight : Option HeightPropertyLike)
    (getPosition : JulianDate → Option Cartesian3) : TerrainOffsetProperty :=
  { scene := scene
    height := height
    extrudedHeight := extrudedHeight
    getPosition := getPosition
    position := Cartesian3.ZERO
    cartographicPosition := ⟨0, 0, 0⟩
    normal := Cartesian3.ZERO
    terrainHeight := 0
    removeCallbackFunc := none
    defChangedCount := 0
    listenerReleases := 0
    destroyed := false }

/-- `_updateClamping` (lines 98-129): with no globe, reset the height to 0
and return at once; otherwise cancel any pending registration, convert the
cached position to geodetic coordinates, register a new refinement, and take
the synchronous best-effort height (or 0 when none is resident). -/
def TerrainOffsetProperty.updateClamping (s : TerrainOffsetProperty)
    (r : Registry) : TerrainOffsetProperty × Registry :=
  match s.scene.globe with
  | none => ({ s with terrainHeight := 0 }, r)
  | some globe =>
    let r1 := match s.removeCallbackFunc with
      | some h => r.cancel h
      | none => r
    let cartographicPosition := globe.ellipsoid.cartesianToCartographic s.position
    let hr2 := r1.updateHeight
    let s1 := { s with cartographicPosition := cartographicPosition
                       removeCallbackFunc := some hr2.1 }
    match globe.getHeight cartographicPosition with
    | some h => ({ s1 with terrainHeight := h }, hr2.2)
    | none => ({ s1 with terrainHeight := 0 }, hr2.2)

/-- The completion callback `updateFunction` (lines 116-120), closed over the
ellipsoid captured at registration time: store the geodetic height of the
clamped position and raise `definitionChanged`. -/
def TerrainOffsetProperty.updateFunction (ellipsoid : Ellipsoid)
    (clampedPosition : Cartesian3) (s : TerrainOffsetProperty) :
    TerrainOffsetProperty :=
  let carto := ellipsoid.cartesianToCartographic clampedPosition
  { s with terrainHeight := carto.height
           defChangedCount := s.defChangedCount + 1 }

/-- The resolution of a height-reference mode in `getValue` (lines 139-146):
an absent property, an absent sub-property, or a valueless sub-property all
resolve to `NONE`. -/
def resolveHeightReference (p : Option HeightPropertyLike)
    (time : JulianDate) : HeightReference :=
  match p with
  | none => HeightReference.NONE
  | some hp => Property.getValueOrDefault hp.heightReference time HeightReference.NONE

/-- `getValue` (lines 136-167).  Returns the offset (or the thrown error),
the instance state after the call, and the registry after the call.  Note
line 165 of the source dereferences `this._scene.globe.ellipsoid` without a
guard, which throws a TypeError when the globe is absent; the state mutations
made before the throw persist, as they do in JavaScript. -/
def TerrainOffsetProperty.getValue (s : TerrainOffsetProperty) (r : Registry)
    (time : JulianDate) :
    Except JsError Cartesian3 × TerrainOffsetProperty × Registry :=
  let heightReference := resolveHeightReference s.height time
  let extrudedHeightReference := resolveHeightReference s.extrudedHeight time
  if heightReference = HeightReference.NONE ∧
      extrudedHeightReference ≠ HeightReference.RELATIVE_TO_GROUND then
    (Except.ok (Cartesian3.clone Cartesian3.ZERO), s, r)
  else
    match s.getPosition time with
    | none => (Except.ok (Cartesian3.clone Cartesian3.ZERO), s, r)
    | some position =>
      if Cartesian3.equals position Cartesian3.ZERO then
        (Except.ok (Cartesian3.clone Cartesian3.ZERO), s, r)
      else if Cartesian3.equalsEpsilon s.position position EPSILON10 then
        (Except.ok (Cartesian3.multiplyByScalar s.normal s.terrainHeight), s, r)
      else
        let s1 := { s with position := Cartesian3.clone position }
        let sr := s1.updateClamping r
        match sr.1.scene.globe with
        | none => (Except.error JsError.typeError, sr.1, sr.2)
        | some globe =>
          let normal := globe.ellipsoid.geodeticSurfaceNormal position
          (Except.ok (Cartesian3.multiplyByScalar normal sr.1.terrainHeight),
           { sr.1 with normal := normal }, sr.2)

/-- `Property.equals(left, right)` on the cached positions.  Modelled from
the spec: equality of cached positions (both sides are always-defined value
objects in this use). -/
def Property.equals (l r : Cartesian3) : Bool :=
  decide (l = r)

/-- `equals` (lines 176-181).  The source also short-circuits on
`this === other`; reference identity of two instances implies equal scenes
and equal cached positions, so in this value model the short-circuit is
subsumed by the remaining test.  Scene reference identity (`===`) is the
`sceneId` comparison. -/
def TerrainOffsetProperty.equals (a b : TerrainOffsetProperty) : Bool :=
  decide (a.scene.sceneId = b.scene.sceneId) && Property.equals a.position b.position

/-- `isDestroyed` (lines 183-185) returns `false` on a live instance;
`destroyObject` later replaces it with a function returning `true`.
Modelled from the spec: after teardown the instance reports itself as
destroyed. -/
def TerrainOffsetProperty.isDestroyed (s : TerrainOffsetProperty) : Bool :=
  s.destroyed

/-- `destroy` (lines 187-194): release the two scene subscriptions, cancel
any pending refinement registration, and mark the instance destroyed.
`destroyObject` and the destroyed-instance guard are modelled from the spec:
teardown marks the instance as destroyed and a destroyed instance must not be
reused, so a second call raises a DeveloperError instead of running the
body again. -/
def TerrainOffsetProperty.destroy (s : TerrainOffsetProperty) (r : Registry) :
    Except JsError Unit × TerrainOffsetProperty × Registry :=
  if s.destroyed then
    (Except.error JsError.developerError, s, r)
  else
    let s1 := { s with listenerReleases := s.listenerReleases + 1 }
    let r1 := match s.removeCallbackFunc with
      | some h => r.cancel h
      | none => r
    (Except.ok (), { s1 with destroyed := true }, r1)

/-- The registration invariant tying an instance to the sampling registry: on
a live instance the in-flight registrations are exactly the one named by
`removeCallbackFunc` (if any); after teardown none is in flight. -/
def TerrainOffsetProperty.RegInv (s : TerrainOffsetProperty) (r : Registry) : Prop :=
  (s.destroyed = false → r.active = s.removeCallbackFunc.toList) ∧
  (s.destroyed = true → r.active = [])

/-- A concrete ellipsoid for concrete evaluations: conversion reads the
components straight across and the normal is the identity map. -/
def exEllipsoid : Ellipsoid :=
  { cartesianToCartographic := fun c => ⟨c.x, c.y, c.z⟩
    geodeticSurfaceNormal := fun c => c }

/-- A concrete globe whose resident terrain detail always yields height 5. -/
def exGlobe : Globe := { ellipsoid := exEllipsoid, getHeight := fun _ => some 5 }

/-- A concrete scene with the globe attached. -/
def exSceneGlobe : Scene := ⟨0, some exGlobe⟩

/-- A concrete scene with no globe attached. -/
def exSceneNoGlobe : Scene := ⟨1, none⟩

/-- A height source resolving to CLAMP_TO_GROUND at every time. -/
def exClampProp : HeightPropertyLike :=
  ⟨some (fun _ => some HeightReference.CLAMP_TO_GROUND)⟩

/-- A height source resolving to NONE at every time. -/
def exNoneProp : HeightPropertyLike :=
  ⟨some (fun _ => some HeightReference.NONE)⟩

/-- A position function yielding the fixed point (1, 2, 3). -/
def exPosA : JulianDate → Option Cartesian3 := fun _ => some ⟨1, 2, 3⟩

/-- A freshly constructed instance on a scene with no globe, with a
clamp-to-ground base height and a non-origin position. -/
def noGlobeState : TerrainOffsetProperty :=
  TerrainOffsetProperty.construct exSceneNoGlobe (some exClampProp)
    (some exNoneProp) exPosA

/-- A freshly constructed instance on a scene with a globe, with a
clamp-to-ground base height and a non-origin position. -/
def freshGlobeState : TerrainOffsetProperty :=
  TerrainOffsetProperty.construct exSceneGlobe (some exClampProp)
    (some exNoneProp) exPosA

/-- An instance whose base mode resolves to NONE. -/
def modeNoneState : TerrainOffsetProperty :=
  TerrainOffsetProperty.construct exSceneGlobe (some exNoneProp)
    (some exNoneProp) exPosA

/-- An instance carrying a populated cache: cached position (1,0,0), cached
normal (2,0,0), cached terrain height 7, position function returning the
cached position again. -/
def cachedState : TerrainOffsetProperty :=
  { TerrainOffsetProperty.construct exSceneGlobe (some exClampProp)
      (some exNoneProp) (fun _ => some ⟨1, 0, 0⟩) with
    position := ⟨1, 0, 0⟩
    normal := ⟨2, 0, 0⟩
    terrainHeight := 7 }

/-- An instance with a pending refinement registration (handle 0). -/
def slowState : TerrainOffsetProperty :=
  { TerrainOffsetProperty.construct exSceneGlobe (some exClampProp)
      (some exNoneProp) exPosA with
    removeCallbackFunc := some 0 }

/-- The registry matching `slowState`: handle 0 in flight, next handle 1. -/
def slowReg : Registry := ⟨1, [0]⟩

/-- A position function yielding a fixed point within EPSILON10 of the
origin but distinct from it. -/
def exPosNear : JulianDate → Option Cartesian3 :=
  fun _ => some ⟨mkRat 1 20000000000, 0, 0⟩

theorem Cartesian3.equals_eq_true {l r : Cartesian3} :
    Cartesian3.equals l r = true ↔ l = r := by
  simp [Cartesian3.equals]

theorem Cartesian3.equalsEpsilon_eq_true {l r : Cartesian3} {eps : ℚ} :
    Cartesian3.equalsEpsilon l r eps = true ↔
      |l.x - r.x| ≤ eps ∧ |l.y - r.y| ≤ eps ∧ |l.z - r.z| ≤ eps := by
  simp only [Cartesian3.equalsEpsilon, decide_eq_true_eq, abs_le]
  tauto

theorem Cartesian3.equalsEpsilon_eq_false {l r : Cartesian3} {eps : ℚ} :
    Cartesian3.equalsEpsilon l r eps = false ↔
      ¬(|l.x - r.x| ≤ eps ∧ |l.y - r.y| ≤ eps ∧ |l.z - r.z| ≤ eps) := by
  rw [← Bool.not_eq_true]
  exact not_congr Cartesian3.equalsEpsilon_eq_true

theorem TerrainOffsetProperty.updateClamping_globe_none
    (s : TerrainOffsetProperty) (r : Registry) (h : s.scene.globe = none) :
    s.updateClamping r = ({ s with terrainHeight := 0 }, r) := by
  unfold TerrainOffsetProperty.updateClamping
  rw [h]

theorem TerrainOffsetProperty.updateClamping_globe_some
    (s : TerrainOffsetProperty) (r : Registry) (g : Globe)
    (h : s.scene.globe = some g) :
    s.updateClamping r =
      ({ s with
          cartographicPosition := g.ellipsoid.cartesianToCartographic s.position
          removeCallbackFunc := some r.nextHandle
          terrainHeight :=
            (g.getHeight (g.ellipsoid.cartesianToCartographic s.position)).getD 0 },
       { nextHandle := r.nextHandle + 1
         active := r.nextHandle ::
           (match s.removeCallbackFunc with
            | some hh => (r.cancel hh).active
            | none => r.active) }) := by
  unfold TerrainOffsetProperty.updateClamping
  rw [h]
  cases hrc : s.removeCallbackFunc <;>
    cases hgt : g.getHeight (g.ellipsoid.cartesianToCartographic s.position) <;>
      simp [Registry.updateHeight, Registry.cancel, hrc, hgt, Option.getD]

theorem TerrainOffsetProperty.getValue_mode_guard
    (s : TerrainOffsetProperty) (r : Registry) (t : JulianDate)
    (h : resolveHeightReference s.height t = HeightReference.NONE ∧
         resolveHeightReference s.extrudedHeight t ≠ HeightReference.RELATIVE_TO_GROUND) :
    s.getValue r t = (Except.ok Cartesian3.ZERO, s, r) := by
  unfold TerrainOffsetProperty.getValue
  rw [if_pos h]
  rfl

theorem TerrainOffsetProperty.getValue_position_none
    (s : TerrainOffsetProperty) (r : Registry) (t : JulianDate)
    (hp : s.getPosition t = none) :
    s.getValue r t = (Except.ok Cartesian3.ZERO, s, r) := by
  unfold TerrainOffsetProperty.getValue
  by_cases hm : resolveHeightReference s.height t = HeightReference.NONE ∧
      resolveHeightReference s.extrudedHeight t ≠ HeightReference.RELATIVE_TO_GROUND
  · rw [if_pos hm]; rfl
  · rw [if_neg hm, hp]; rfl

theorem TerrainOffsetProperty.getValue_position_zero
    (s : TerrainOffsetProperty) (r : Registry) (t : JulianDate)
    (hp : s.getPosition t = some Cartesian3.ZERO) :
    s.getValue r t = (Except.ok Cartesian3.ZERO, s, r) := by
  unfold TerrainOffsetProperty.getValue
  by_cases hm : resolveHeightReference s.height t = HeightReference.NONE ∧
      resolveHeightReference s.extrudedHeight t ≠ HeightReference.RELATIVE_TO_GROUND
  · rw [if_pos hm]; rfl
  · rw [if_neg hm, hp]
    simp [Cartesian3.equals, Cartesian3.clone]

theorem TerrainOffsetProperty.getValue_fast
    (s : TerrainOffsetProperty) (r : Registry) (t : JulianDate) (p : Cartesian3)
    (hm : ¬(resolveHeightReference s.height t = HeightReference.NONE ∧
            resolveHeightReference s.extrudedHeight t ≠ HeightReference.RELATIVE_TO_GROUND))
    (hp : s.getPosition t = some p)
    (hnz : p ≠ Cartesian3.ZERO)
    (heps : Cartesian3.equalsEpsilon s.position p EPSILON10 = true) :
    s.getValue r t =
      (Except.ok (Cartesian3.multiplyByScalar s.normal s.terrainHeight), s, r) := by
  unfold TerrainOffsetProperty.getValue
  rw [if_neg hm, hp]
  simp [Cartesian3.equals, hnz, heps]

theorem TerrainOffsetProperty.getValue_slow_globe_none
    (s : TerrainOffsetProperty) (r : Registry) (t : JulianDate) (p : Cartesian3)
    (hm : ¬(resolveHeightReference s.height t = HeightReference.NONE ∧
            resolveHeightReference s.extrudedHeight t ≠ HeightReference.RELATIVE_TO_GROUND))
    (hp : s.getPosition t = some p)
    (hnz : p ≠ Cartesian3.ZERO)
    (heps : Cartesian3.equalsEpsilon s.position p EPSILON10 = false)
    (hg : s.scene.globe = none) :
    s.getValue r t =
      (Except.error JsError.typeError,
       { s with position := p, terrainHeight := 0 }, r) := by
  unfold TerrainOffsetProperty.getValue
  rw [if_neg hm, hp]
  have hclamp := TerrainOffsetProperty.updateClamping_globe_none
      { s with position := p } r (by exact hg)
  simp [Cartesian3.equals, hnz, heps, hclamp, Cartesian3.clone, hg]

theorem TerrainOffsetProperty.getValue_slow_globe_some
    (s : TerrainOffsetProperty) (r : Registry) (t : JulianDate) (p : Cartesian3)
    (g : Globe)
    (hm : ¬(resolveHeightReference s.height t = HeightReference.NONE ∧
            resolveHeightReference s.extrudedHeight t ≠ HeightReference.RELATIVE_TO_GROUND))
    (hp : s.getPosition t = some p)
    (hnz : p ≠ Cartesian3.ZERO)
    (heps : Cartesian3.equalsEpsilon s.position p EPSILON10 = false)
    (hg : s.scene.globe = some g) :
    s.getValue r t =
      (Except.ok (Cartesian3.multiplyByScalar (g.ellipsoid.geodeticSurfaceNormal p)
          ((g.getHeight (g.ellipsoid.cartesianToCartographic p)).getD 0)),
       { s with
          position := p
          cartographicPosition := g.ellipsoid.cartesianToCartographic p
          normal := g.ellipsoid.geodeticSurfaceNormal p
          terrainHeight := (g.getHeight (g.ellipsoid.cartesianToCartographic p)).getD 0
          removeCallbackFunc := some r.nextHandle },
       { nextHandle := r.nextHandle + 1
         active := r.nextHandle ::
           (match s.removeCallbackFunc with
            | some hh => (r.cancel hh).active
            | none => r.active) }) := by
  unfold TerrainOffsetProperty.getValue
  rw [if_neg hm, hp]
  have hclamp := TerrainOffsetProperty.updateClamping_globe_some
      { s with position := p } r g (by exact hg)
  simp [Cartesian3.equals, hnz, heps, hclamp, Cartesian3.clone, hg]


/-- C1: the claim states that with no globe/terrain collaborator attached,
`getValue` returns the zero vector for every time value and never throws.
The code disagrees: at the concrete input below the mode guard passes, the
fresh non-origin position forces the recompute path, `_updateClamping`
degrades the height to 0, and then line 165 dereferences the absent
`scene.globe` for the surface normal and throws a TypeError. -/
theorem C1_no_globe_getValue_throws :
    (noGlobeState.getValue Registry.init 0).1 = Except.error JsError.typeError ∧
    (noGlobeState.getValue Registry.init 0).2.1.terrainHeight = 0 := by
  have h := TerrainOffsetProperty.getValue_slow_globe_none noGlobeState
      Registry.init 0 ⟨1, 2, 3⟩ (by decide) rfl (by decide)
      (by
        rw [Cartesian3.equalsEpsilon_eq_false]
        norm_num [noGlobeState, TerrainOffsetProperty.construct, Cartesian3.ZERO,
          EPSILON10])
      rfl
  rw [h]
  exact ⟨rfl, rfl⟩

/-- C2: `getValue` returns the zero vector (with no state or registry
change) whenever the resolved base mode is NONE and the resolved extruded
mode is not RELATIVE_TO_GROUND, and also whenever the position function
yields no position or yields exactly the origin. -/
theorem C2_zero_vector_guards (s : TerrainOffsetProperty) (r : Registry)
    (t : JulianDate) :
    (resolveHeightReference s.height t = HeightReference.NONE ∧
     resolveHeightReference s.extrudedHeight t ≠ HeightReference.RELATIVE_TO_GROUND →
       s.getValue r t = (Except.ok Cartesian3.ZERO, s, r)) ∧
    (s.getPosition t = none ∨ s.getPosition t = some Cartesian3.ZERO →
       s.getValue r t = (Except.ok Cartesian3.ZERO, s, r)) := by
  constructor
  · exact fun h => TerrainOffsetProperty.getValue_mode_guard s r t h
  · rintro (hp | hp)
    · exact TerrainOffsetProperty.getValue_position_none s r t hp
    · exact TerrainOffsetProperty.getValue_position_zero s r t hp

theorem C2_zero_vector_guards_witness :
    modeNoneState.getValue Registry.init 0 =
      (Except.ok Cartesian3.ZERO, modeNoneState, Registry.init) :=
  (C2_zero_vector_guards modeNoneState Registry.init 0).1 ⟨rfl, by decide⟩

/-- C3: when the requested position differs from the cached position by less
than EPSILON10 in every component (and the mode and origin guards pass),
`getValue` takes the fast path: the state and the registry are returned
unchanged (so no new height-refinement registration is issued and the cached
position, normal and terrain height are untouched) and the result is the
cached normal scaled by the cached terrain height. -/
theorem C3_epsilon_fast_path (s : TerrainOffsetProperty) (r : Registry)
    (t : JulianDate) (p : Cartesian3)
    (hm : ¬(resolveHeightReference s.height t = HeightReference.NONE ∧
            resolveHeightReference s.extrudedHeight t ≠ HeightReference.RELATIVE_TO_GROUND))
    (hp : s.getPosition t = some p)
    (hnz : p ≠ Cartesian3.ZERO)
    (hx : |s.position.x - p.x| < EPSILON10)
    (hy : |s.position.y - p.y| < EPSILON10)
    (hz : |s.position.z - p.z| < EPSILON10) :
    s.getValue r t =
      (Except.ok (Cartesian3.multiplyByScalar s.normal s.terrainHeight), s, r) := by
  apply TerrainOffsetProperty.getValue_fast s r t p hm hp hnz
  rw [Cartesian3.equalsEpsilon_eq_true]
  exact ⟨le_of_lt hx, le_of_lt hy, le_of_lt hz⟩

theorem C3_epsilon_fast_path_witness :
    cachedState.getValue Registry.init 0 =
      (Except.ok (Cartesian3.multiplyByScalar ⟨2, 0, 0⟩ 7), cachedState,
       Registry.init) :=
  C3_epsilon_fast_path cachedState Registry.init 0 ⟨1, 0, 0⟩
    (by decide) rfl (by decide)
    (by norm_num [cachedState, TerrainOffsetProperty.construct, EPSILON10])
    (by norm_num [cachedState, TerrainOffsetProperty.construct, EPSILON10])
    (by norm_num [cachedState, TerrainOffsetProperty.construct, EPSILON10])

theorem TerrainOffsetProperty.destroy_live (s : TerrainOffsetProperty)
    (r : Registry) (hd : s.destroyed = false) :
    s.destroy r =
      (Except.ok (),
       { s with listenerReleases := s.listenerReleases + 1, destroyed := true },
       match s.removeCallbackFunc with
       | some hh => r.cancel hh
       | none => r) := by
  unfold TerrainOffsetProperty.destroy
  rw [if_neg (by simp [hd])]

theorem TerrainOffsetProperty.destroy_destroyed (s : TerrainOffsetProperty)
    (r : Registry) (hd : s.destroyed = true) :
    s.destroy r = (Except.error JsError.developerError, s, r) := by
  unfold TerrainOffsetProperty.destroy
  rw [if_pos hd]

/-- C4 (amended): when a globe is attached to the scene, every requested
position that differs from the cached position by more than the epsilon (and
passes the mode and non-origin guards) makes `getValue` store the candidate
as the new cached position, cancel any prior pending registration and issue
exactly one new height-refinement registration (so exactly the new handle is
in flight and the handle counter advances by one), recompute the surface
normal at the new position, and return that normal scaled by the cached
terrain height. -/
theorem C4_slow_path_registration (s : TerrainOffsetProperty) (r : Registry)
    (t : JulianDate) (p : Cartesian3) (g : Globe)
    (hm : ¬(resolveHeightReference s.height t = HeightReference.NONE ∧
            resolveHeightReference s.extrudedHeight t ≠ HeightReference.RELATIVE_TO_GROUND))
    (hp : s.getPosition t = some p)
    (hnz : p ≠ Cartesian3.ZERO)
    (heps : Cartesian3.equalsEpsilon s.position p EPSILON10 = false)
    (hg : s.scene.globe = some g)
    (hlive : s.destroyed = false)
    (hinv : s.RegInv r) :
    (s.getValue r t).2.1.position = p ∧
    (s.getValue r t).2.2.nextHandle = r.nextHandle + 1 ∧
    (s.getValue r t).2.2.active = [r.nextHandle] ∧
    (s.getValue r t).2.1.removeCallbackFunc = some r.nextHandle ∧
    (s.getValue r t).2.1.normal = g.ellipsoid.geodeticSurfaceNormal p ∧
    (s.getValue r t).1 = Except.ok (Cartesian3.multiplyByScalar
        (g.ellipsoid.geodeticSurfaceNormal p) (s.getValue r t).2.1.terrainHeight) := by
  have h := TerrainOffsetProperty.getValue_slow_globe_some s r t p g hm hp hnz heps hg
  rw [h]
  have hact := hinv.1 hlive
  refine ⟨rfl, rfl, ?_, rfl, rfl, rfl⟩
  cases hrc : s.removeCallbackFunc with
  | none =>
    rw [hrc] at hact
    simp only [hrc]
    simp [hact]
  | some hh =>
    rw [hrc] at hact
    simp only [hrc]
    simp [Registry.cancel, hact]

/-- C4 counterexample: at a concrete input satisfying every guard the claim
quantifies over (mode requiring an offset, defined non-origin position
farther than epsilon from the cache) but with no globe attached, `getValue`
issues no height-refinement registration at all: the registry comes back
unchanged (and the call throws instead of returning an offset). -/
theorem C4_no_globe_no_registration :
    resolveHeightReference noGlobeState.height 0 = HeightReference.CLAMP_TO_GROUND ∧
    noGlobeState.getPosition 0 = some ⟨1, 2, 3⟩ ∧
    Cartesian3.equalsEpsilon noGlobeState.position ⟨1, 2, 3⟩ EPSILON10 = false ∧
    (noGlobeState.getValue Registry.init 0).2.2 = Registry.init := by
  refine ⟨rfl, rfl, ?_, ?_⟩
  · rw [Cartesian3.equalsEpsilon_eq_false]
    norm_num [noGlobeState, TerrainOffsetProperty.construct, Cartesian3.ZERO,
      EPSILON10]
  · have h := TerrainOffsetProperty.getValue_slow_globe_none noGlobeState
        Registry.init 0 ⟨1, 2, 3⟩ (by decide) rfl (by decide)
        (by
          rw [Cartesian3.equalsEpsilon_eq_false]
          norm_num [noGlobeState, TerrainOffsetProperty.construct,
            Cartesian3.ZERO, EPSILON10])
        rfl
    rw [h]

theorem C4_slow_path_registration_witness :
    (slowState.getValue slowReg 0).2.2.active = [1] ∧
    (slowState.getValue slowReg 0).2.2.nextHandle = 2 ∧
    (slowState.getValue slowReg 0).2.1.removeCallbackFunc = some 1 :=
  have h := C4_slow_path_registration slowState slowReg 0 ⟨1, 2, 3⟩ exGlobe
    (by decide) rfl (by decide)
    (by
      rw [Cartesian3.equalsEpsilon_eq_false]
      norm_num [slowState, TerrainOffsetProperty.construct, Cartesian3.ZERO,
        EPSILON10])
    rfl rfl ⟨fun _ => rfl, fun hh => absurd hh (by decide)⟩
  ⟨h.2.2.1, h.2.1, h.2.2.2.1⟩

/-- C5: at most one asynchronous height-refinement registration is in flight
at any point in the lifetime.  Stated as an inductive invariant `RegInv`
tying the instance to the sampling registry: it bounds the in-flight
registrations by one, holds at construction, is preserved by the clamping
recomputation and by `getValue` on a live instance (each first cancels any
pending registration before registering a new one), and teardown releases
any pending registration, leaving none in flight. -/
theorem C5_single_registration (s : TerrainOffsetProperty) (r : Registry)
    (hinv : s.RegInv r) :
    r.active.length ≤ 1 ∧
    (∀ (sc : Scene) (hh eh : Option HeightPropertyLike)
        (gp : JulianDate → Option Cartesian3),
      (TerrainOffsetProperty.construct sc hh eh gp).RegInv Registry.init) ∧
    (s.destroyed = false →
      (s.updateClamping r).1.RegInv (s.updateClamping r).2 ∧
      (∀ t, (s.getValue r t).2.1.RegInv (s.getValue r t).2.2) ∧
      (s.destroy r).2.2.active = [] ∧
      (s.destroy r).2.1.RegInv (s.destroy r).2.2) := by
  refine ⟨?_, ?_, ?_⟩
  · cases hd : s.destroyed with
    | false =>
      rw [hinv.1 hd]
      cases s.removeCallbackFunc <;> simp [Option.toList]
    | true =>
      rw [hinv.2 hd]
      simp
  · intro sc hh eh gp
    exact ⟨fun _ => rfl, fun h => absurd h Bool.false_ne_true⟩
  · intro hd
    have hact := hinv.1 hd
    have htail : (match s.removeCallbackFunc with
        | some hh => (r.cancel hh).active
        | none => r.active) = [] := by
      cases hrc : s.removeCallbackFunc with
      | none => rw [hrc] at hact; simpa using hact
      | some hh => rw [hrc] at hact; simp [Registry.cancel, hact]
    refine ⟨?_, ?_, ?_, ?_⟩
    · cases hg : s.scene.globe with
      | none =>
        rw [TerrainOffsetProperty.updateClamping_globe_none s r hg]
        exact ⟨fun _ => hact, fun h => absurd h (by simp [hd])⟩
      | some g =>
        rw [TerrainOffsetProperty.updateClamping_globe_some s r g hg]
        refine ⟨fun _ => ?_, fun h => absurd h (by simp [hd])⟩
        simp [htail]
    · intro t
      by_cases hmg : resolveHeightReference s.height t = HeightReference.NONE ∧
          resolveHeightReference s.extrudedHeight t ≠ HeightReference.RELATIVE_TO_GROUND
      · rw [TerrainOffsetProperty.getValue_mode_guard s r t hmg]
        exact hinv
      · cases hp : s.getPosition t with
        | none =>
          rw [TerrainOffsetProperty.getValue_position_none s r t hp]
          exact hinv
        | some p =>
          by_cases hz : p = Cartesian3.ZERO
          · subst hz
            rw [TerrainOffsetProperty.getValue_position_zero s r t hp]
            exact hinv
          · cases heps : Cartesian3.equalsEpsilon s.position p EPSILON10 with
            | true =>
              rw [TerrainOffsetProperty.getValue_fast s r t p hmg hp hz heps]
              exact hinv
            | false =>
              cases hg : s.scene.globe with
              | none =>
                rw [TerrainOffsetProperty.getValue_slow_globe_none s r t p hmg hp hz heps hg]
                exact ⟨fun _ => hact, fun h => absurd h (by simp [hd])⟩
              | some g =>
                rw [TerrainOffsetProperty.getValue_slow_globe_some s r t p g hmg hp hz heps hg]
                refine ⟨fun _ => ?_, fun h => absurd h (by simp [hd])⟩
                simp [htail]
    · rw [TerrainOffsetProperty.destroy_live s r hd]
      cases hrc : s.removeCallbackFunc with
      | none =>
        simp only [hrc]
        rw [hrc] at hact
        simpa using hact
      | some hh =>
        simp only [hrc]
        rw [hrc] at hact
        simp [Registry.cancel, hact]
    · rw [TerrainOffsetProperty.destroy_live s r hd]
      refine ⟨fun h => absurd h (by simp), fun _ => ?_⟩
      cases hrc : s.removeCallbackFunc with
      | none =>
        simp only [hrc]
        rw [hrc] at hact
        simpa using hact
      | some hh =>
        simp only [hrc]
        rw [hrc] at hact
        simp [Registry.cancel, hact]

theorem C5_single_registration_witness :
    Registry.init.active.length ≤ 1 ∧
    (freshGlobeState.destroy Registry.init).2.2.active = [] :=
  have h := C5_single_registration freshGlobeState Registry.init
    ⟨fun _ => rfl, fun hh => absurd hh (by decide)⟩
  ⟨h.1, (h.2.2 rfl).2.2.1⟩

/-- C6 (amended): the change notifier fires only from the asynchronous
refinement callback: each callback invocation raises exactly one
notification, whether or not the resolved height changed, while the
synchronous clamping recomputation never raises a notification, even when
its best-effort update changes the cached terrain height. -/
theorem C6_event_only_from_async_callback (s : TerrainOffsetProperty)
    (r : Registry) (ell : Ellipsoid) (cp : Cartesian3) :
    (s.updateClamping r).1.defChangedCount = s.defChangedCount ∧
    (TerrainOffsetProperty.updateFunction ell cp s).defChangedCount =
      s.defChangedCount + 1 := by
  refine ⟨?_, rfl⟩
  cases hg : s.scene.globe with
  | none => rw [TerrainOffsetProperty.updateClamping_globe_none s r hg]
  | some g => rw [TerrainOffsetProperty.updateClamping_globe_some s r g hg]

/-- C6 counterexample: at a concrete instance the synchronous best-effort
update inside the clamping recomputation changes the cached terrain height
from 0 to 5, yet no change notification is raised — contradicting the claim
that every operation assigning a new, different cached terrain height raises
exactly one change notification. -/
theorem C6_sync_height_change_no_event :
    freshGlobeState.terrainHeight = 0 ∧
    (freshGlobeState.updateClamping Registry.init).1.terrainHeight = 5 ∧
    (freshGlobeState.updateClamping Registry.init).1.defChangedCount =
      freshGlobeState.defChangedCount := by
  exact ⟨rfl, rfl, rfl⟩

/-- C7: synchronous postcondition of the clamping recomputation: with no
globe attached the cached terrain height becomes 0 and the call returns at
once with the registry untouched (no refinement registered); with a globe
attached the call registers the refinement (its handle is stored and the
handle counter advances) and the cached terrain height equals the immediate
best-effort synchronous lookup when it yields a value, and 0 otherwise. -/
theorem C7_updateClamping_postcondition (s : TerrainOffsetProperty)
    (r : Registry) :
    (s.scene.globe = none →
      s.updateClamping r = ({ s with terrainHeight := 0 }, r)) ∧
    (∀ g, s.scene.globe = some g →
      (s.updateClamping r).1.terrainHeight =
        (g.getHeight (g.ellipsoid.cartesianToCartographic s.position)).getD 0 ∧
      (s.updateClamping r).1.removeCallbackFunc = some r.nextHandle ∧
      (s.updateClamping r).2.nextHandle = r.nextHandle + 1) := by
  refine ⟨fun hg => TerrainOffsetProperty.updateClamping_globe_none s r hg, ?_⟩
  intro g hg
  rw [TerrainOffsetProperty.updateClamping_globe_some s r g hg]
  exact ⟨rfl, rfl, rfl⟩

theorem C7_updateClamping_postcondition_witness :
    (freshGlobeState.updateClamping Registry.init).1.terrainHeight = 5 ∧
    (freshGlobeState.updateClamping Registry.init).2.nextHandle = 1 :=
  have h := (C7_updateClamping_postcondition freshGlobeState Registry.init).2
    exGlobe rfl
  ⟨h.1, h.2.2⟩

/-- C8: two instances are `equals`-equal iff they are the same instance or
reference the same scene and hold equal cached positions (in this value
model sameness of instance is value equality, which entails the same-scene
and equal-position conditions, so the identity short-circuit of the source
is subsumed). -/
theorem C8_equals_iff (a b : TerrainOffsetProperty) :
    a.equals b = true ↔
      (a = b ∨ (a.scene.sceneId = b.scene.sceneId ∧ a.position = b.position)) := by
  simp only [TerrainOffsetProperty.equals, Property.equals, Bool.and_eq_true,
    decide_eq_true_eq]
  constructor
  · exact fun h => Or.inr h
  · rintro (rfl | h)
    · exact ⟨rfl, rfl⟩
    · exact h

/-- C9 (amended): destroying a live instance releases the subscriptions
exactly once and marks the instance destroyed; a second destroy call is
guarded: it raises the destroyed-object error and releases nothing further
(so the subscriptions are not double-released), and the instance still
reports itself destroyed. -/
theorem C9_destroy_twice_guarded (s : TerrainOffsetProperty) (r : Registry)
    (hd : s.destroyed = false) :
    (s.destroy r).1 = Except.ok () ∧
    (s.destroy r).2.1.isDestroyed = true ∧
    (s.destroy r).2.1.listenerReleases = s.listenerReleases + 1 ∧
    ((s.destroy r).2.1.destroy (s.destroy r).2.2).1 =
      Except.error JsError.developerError ∧
    ((s.destroy r).2.1.destroy (s.destroy r).2.2).2.1.listenerReleases =
      s.listenerReleases + 1 ∧
    ((s.destroy r).2.1.destroy (s.destroy r).2.2).2.1.isDestroyed = true := by
  have h1 := TerrainOffsetProperty.destroy_live s r hd
  have h2 := TerrainOffsetProperty.destroy_destroyed
      { s with listenerReleases := s.listenerReleases + 1, destroyed := true }
      (match s.removeCallbackFunc with
       | some hh => r.cancel hh
       | none => r) rfl
  simp [h1, h2, TerrainOffsetProperty.isDestroyed]

/-- C9 counterexample: at a concrete instance the second destroy call raises
the destroyed-object error, contradicting the claim that destroying the
instance twice does not raise an error on the second call. -/
theorem C9_second_destroy_raises :
    ((freshGlobeState.destroy Registry.init).2.1.destroy
        (freshGlobeState.destroy Registry.init).2.2).1 =
      Except.error JsError.developerError := by
  rfl

theorem C9_destroy_twice_guarded_witness :
    ((freshGlobeState.destroy Registry.init).2.1.destroy
        (freshGlobeState.destroy Registry.init).2.2).2.1.listenerReleases = 1 ∧
    (freshGlobeState.destroy Registry.init).2.1.isDestroyed = true :=
  have h := C9_destroy_twice_guarded freshGlobeState Registry.init rfl
  ⟨h.2.2.2.2.1, h.2.1⟩

/-- C10: before any prior successful evaluation (that is, on a freshly
constructed instance whose cache is the zero position, zero normal and zero
terrain height), a requested position within EPSILON10 of the origin but not
exactly the origin, under a mode requiring an offset, takes the epsilon fast
path against the fresh zero cached position: the zero vector is returned
(zero initial normal times zero initial terrain height), the cache is not
updated and no height-refinement registration is issued. -/
theorem C10_near_origin_fresh_fast_path (sc : Scene)
    (hh eh : Option HeightPropertyLike)
    (gp : JulianDate → Option Cartesian3) (r : Registry) (t : JulianDate)
    (p : Cartesian3)
    (hm : ¬(resolveHeightReference hh t = HeightReference.NONE ∧
            resolveHeightReference eh t ≠ HeightReference.RELATIVE_TO_GROUND))
    (hp : gp t = some p)
    (hnz : p ≠ Cartesian3.ZERO)
    (heps : Cartesian3.equalsEpsilon Cartesian3.ZERO p EPSILON10 = true) :
    (TerrainOffsetProperty.construct sc hh eh gp).getValue r t =
      (Except.ok Cartesian3.ZERO,
       TerrainOffsetProperty.construct sc hh eh gp, r) := by
  have h := TerrainOffsetProperty.getValue_fast
      (TerrainOffsetProperty.construct sc hh eh gp) r t p hm hp hnz heps
  rw [h]
  have hmul : Cartesian3.multiplyByScalar Cartesian3.ZERO 0 = Cartesian3.ZERO := by
    simp [Cartesian3.multiplyByScalar, Cartesian3.ZERO]
  simp [TerrainOffsetProperty.construct, hmul]

theorem C10_near_origin_fresh_fast_path_witness :
    (TerrainOffsetProperty.construct exSceneGlobe (some exClampProp)
        (some exNoneProp) exPosNear).getValue Registry.init 0 =
      (Except.ok Cartesian3.ZERO,
       TerrainOffsetProperty.construct exSceneGlobe (some exClampProp)
         (some exNoneProp) exPosNear, Registry.init) :=
  C10_near_origin_fresh_fast_path exSceneGlobe (some exClampProp)
    (some exNoneProp) exPosNear Registry.init 0 ⟨mkRat 1 20000000000, 0, 0⟩
    (by decide) rfl (by decide)
    (by
      simp only [Cartesian3.equalsEpsilon, decide_eq_true_eq, Cartesian3.ZERO]
      norm_num [EPSILON10, Rat.mkRat_eq_div])
